import Mathlib

/-!
# kubemqctl: a verification development

Shallow embedding of the parts of the repository the specification talks about:

* `pkg/k8s/client/client.go`: the two goroutines started by `ForwardPorts` and
  `ForwardPortsToService`, and the resolvers `GetPods` and `GetServices`;
* `cmd/get/operator/logs/logs.go`: `NewCmdLogs` and `LogsOptions.Complete`;
* `cmd/commands/send.go` and `cmd/queries/send.go`: `Complete`.

Go strings are modelled by Lean strings, `len(s) != 0` by `s ≠ ""`, a Go
`error` by `Option GoError` (`none` is `nil`), a Go map by an association list
with overwriting insertion, and a run-time panic by an explicit outcome.
-/

set_option autoImplicit false

namespace Kubemqctl

/-- The message of a Go `error` value. -/
abbrev GoError := String

/-! ## Tunnel session: `pkg/k8s/client/client.go`, `ForwardPorts` -/

namespace Tunnel

/-- What the goroutines of one tunnel session have done to the three channels the caller
passed in: the messages sent on `outCh` and `errOutCh` in the order they were sent, whether
`stopChan` is closed, and the run-time panic a goroutine died with, if any.
A send is taken to complete (the caller receives from both channels). -/
structure Chans where
  stopClosed : Bool
  outCh : List String
  errOutCh : List String
  panicMsg : Option String
  deriving DecidableEq, Repr

/-- Channels as the caller hands them over: nothing sent, `stopChan` open. -/
def Chans.fresh : Chans :=
  { stopClosed := false, outCh := [], errOutCh := [], panicMsg := none }

/-- Go statement `outCh <- msg`. -/
def sendOut (msg : String) (c : Chans) : Chans :=
  { c with outCh := c.outCh ++ [msg] }

/-- Go statement `errOutCh <- msg`. -/
def sendErrOut (msg : String) (c : Chans) : Chans :=
  { c with errOutCh := c.errOutCh ++ [msg] }

/-- Go statement `close(stopChan)`: closing a channel that is already closed is the
run-time panic `close of closed channel`. -/
def closeStop (c : Chans) : Chans :=
  if c.stopClosed then { c with panicMsg := some "close of closed channel" }
  else { c with stopClosed := true }

/-- Body of the first goroutine of `ForwardPorts` (client.go 173-182) after the loop
`for range readyChan` has ended, that is once `readyChan` has been closed; `out` and
`errOut` are the contents of the two captured buffers at that moment. -/
def readinessUnit (out errOut : String) (c : Chans) : Chans :=
  if errOut ≠ "" then
    closeStop (sendErrOut errOut c)
  else if out ≠ "" then
    sendOut out c
  else
    c

/-- Body of the second goroutine of `ForwardPorts` (client.go 184-188):
`forwardErr` is what `forwarder.ForwardPorts()` returned. -/
def forwardUnit (forwardErr : Option GoError) (c : Chans) : Chans :=
  match forwardErr with
  | some e => sendErrOut e c
  | none => c

/-- Body of the first goroutine of `ForwardPortsToService` (client.go 214-223). -/
def readinessUnitService (out errOut : String) (c : Chans) : Chans :=
  if errOut ≠ "" then
    closeStop (sendErrOut errOut c)
  else if out ≠ "" then
    sendOut out c
  else
    c

/-- Body of the second goroutine of `ForwardPortsToService` (client.go 225-229). -/
def forwardUnitService (forwardErr : Option GoError) (c : Chans) : Chans :=
  match forwardErr with
  | some e => sendErrOut e c
  | none => c

/-- What the collaborators of one call of `ForwardPorts` do: the first error among
`ClientConfig()`, `spdy.RoundTripperFor` and `portforward.New` (client.go 153-171), if
any; the contents `(out, errOut)` of the captured buffers when `readyChan` is closed
(`none`: it is never closed, the first goroutine stays in its loop); the error
`forwarder.ForwardPorts()` returns (`none`: it returns nil or never returns); and which
of the two goroutines reaches its statements first. -/
structure Run where
  setupErr : Option GoError
  ready : Option (String × String)
  forwardErr : Option GoError
  forwardFirst : Bool
  deriving DecidableEq, Repr

/-- A goroutine body runs only as long as no goroutine has panicked: a panic ends the
process. -/
def whileAlive (body : Chans → Chans) (c : Chans) : Chans :=
  if c.panicMsg.isSome then c else body c

/-- Method `Client.ForwardPorts` (client.go 152-191): the returned error and what the two
goroutines it starts do to the caller's channels. -/
def ForwardPorts (r : Run) (c : Chans) : Option GoError × Chans :=
  match r.setupErr with
  | some err => (some err, c)
  | none =>
    let readiness : Chans → Chans :=
      match r.ready with
      | some (out, errOut) => whileAlive (readinessUnit out errOut)
      | none => id
    let forward : Chans → Chans := whileAlive (forwardUnit r.forwardErr)
    (none, if r.forwardFirst then readiness (forward c) else forward (readiness c))

/-- Method `Client.ForwardPortsToService` (client.go 193-232). -/
def ForwardPortsToService (r : Run) (c : Chans) : Option GoError × Chans :=
  match r.setupErr with
  | some err => (some err, c)
  | none =>
    let readiness : Chans → Chans :=
      match r.ready with
      | some (out, errOut) => whileAlive (readinessUnitService out errOut)
      | none => id
    let forward : Chans → Chans := whileAlive (forwardUnitService r.forwardErr)
    (none, if r.forwardFirst then readiness (forward c) else forward (readiness c))

/-- A session whose tunnel comes up (`readyChan` closed, informational output captured,
no error output) and whose forward loop later fails. -/
def lostConnectionRun : Run :=
  { setupErr := none
    ready := some ("Forwarding from 127.0.0.1:8080 -> 8080", "")
    forwardErr := some "lost connection to pod"
    forwardFirst := false }

/-- A session whose listeners cannot be set up: `readyChan` is closed with error output
captured, and the forward loop then returns a failure. -/
def bindFailureRun : Run :=
  { setupErr := none
    ready := some ("", "bind: address in use")
    forwardErr := some "unable to listen on any of the requested ports"
    forwardFirst := false }

/-- Channels whose `stopChan` the caller has already closed. -/
def callerStopped : Chans :=
  { Chans.fresh with stopClosed := true }

end Tunnel

/-! ## Target resolver: `pkg/k8s/client/client.go`, `GetPods` and `GetServices` -/

namespace Resolver

/-- Go `strings.HasPrefix(s, pre)` on the characters of the two strings. -/
def startsWith (s pre : String) : Bool :=
  pre.data.isPrefixOf s.data

/-- Does `sub` occur in `cs` at some position: the search of `strings.Contains`. -/
def containsChars (sub : List Char) : List Char → Bool
  | [] => sub.isEmpty
  | c :: cs => sub.isPrefixOf (c :: cs) || containsChars sub cs

/-- Go `strings.Contains(s, substr)`. -/
def stringsContains (s substr : String) : Bool :=
  containsChars substr.data s.data

/-- Go `fmt.Sprintf("%s/%s", a, b)`. -/
def sprintfSlash (a b : String) : String :=
  a ++ "/" ++ b

/-- A Go `map[string]α`: the entries, each key at most once. -/
abbrev GoMap (α : Type) := List (String × α)

/-- Go statement `m[k] = v`: an entry under the same key is overwritten. -/
def GoMap.set {α : Type} (m : GoMap α) (k : String) (v : α) : GoMap α :=
  m.filter (fun e => e.1 ≠ k) ++ [(k, v)]

/-- The fields of `apiv1.Pod` the resolver reads (`Namespace`, `Name`), with `UID`
standing for the rest of the object. -/
structure Pod where
  Namespace : String
  Name : String
  UID : String
  deriving DecidableEq, Repr

/-- The fields of `apiv1.Service` the resolver reads, with `UID` for the rest. -/
structure Service where
  Namespace : String
  Name : String
  UID : String
  deriving DecidableEq, Repr

/-- The two cluster calls of `Client` the resolver makes:
`c.ClientSet.CoreV1().Pods(ns).List(...)` and `c.ClientSet.CoreV1().Services(ns).List(...)`,
each returning the listed items or a non-nil error. -/
structure Client where
  listPods : String → Except GoError (List Pod)
  listServices : String → Except GoError (List Service)

/-- One turn of the loop of `GetPods` (client.go 128-131). -/
def podStep (name : String) (list : GoMap Pod) (item : Pod) : GoMap Pod :=
  if stringsContains item.Name (name ++ "-") then
    list.set (sprintfSlash item.Namespace item.Name) item
  else
    list

/-- Method `Client.GetPods` (client.go 120-134): the returned map (`none` is the nil map) and
the returned error (`none` is nil). -/
def GetPods (c : Client) (ns name : String) : Option (GoMap Pod) × Option GoError :=
  match c.listPods ns with
  | .error err => (none, some err)
  | .ok items => (some (items.foldl (podStep name) []), none)

/-- One turn of the loop of `GetServices` (client.go 144-147). -/
def serviceStep (name : String) (list : GoMap Service) (item : Service) : GoMap Service :=
  if item.Name = name then
    list.set (sprintfSlash item.Namespace item.Name) item
  else
    list

/-- Method `Client.GetServices` (client.go 136-150). -/
def GetServices (c : Client) (ns name : String) :
    Option (GoMap Service) × Option GoError :=
  match c.listServices ns with
  | .error err => (none, some err)
  | .ok items => (some (items.foldl (serviceStep name) []), none)

/-- A cluster holding the given pods and services whose listing calls succeed: a listing
in namespace `ns` returns the items of that namespace, all items when `ns` is empty. -/
def clusterOf (pods : List Pod) (services : List Service) : Client :=
  { listPods := fun ns => .ok (pods.filter (fun p => ns = "" ∨ p.Namespace = ns))
    listServices := fun ns => .ok (services.filter (fun s => ns = "" ∨ s.Namespace = ns)) }

/-- A cluster whose listing calls fail. -/
def unreachableCluster : Client :=
  { listPods := fun _ => .error "connection refused"
    listServices := fun _ => .error "connection refused" }

/-- A pod of a cluster `my-kubemq-cluster` in namespace `kubemq`. -/
def samplePod : Pod :=
  { Namespace := "kubemq", Name := "my-kubemq-cluster-0", UID := "u1" }

/-- A service in namespace `kubemq`. -/
def sampleService : Service :=
  { Namespace := "kubemq", Name := "kubemq-cluster-grpc", UID := "u2" }

/-- The key `GetPods` stores a pod under (client.go 130). -/
def podKey (item : Pod) : String :=
  sprintfSlash item.Namespace item.Name

/-- The same pod name listed a second time with another `UID`. -/
def samplePodAgain : Pod :=
  { samplePod with UID := "u9" }

/-- Two pods of different namespace and name whose keys coincide. -/
def slashPodA : Pod :=
  { Namespace := "a", Name := "b/x-0", UID := "u3" }

/-- The second pod of the pair. -/
def slashPodB : Pod :=
  { Namespace := "a/b", Name := "x-0", UID := "u4" }

/-- A second pod of the sample cluster, and one of another owner. -/
def samplePodOne : Pod :=
  { Namespace := "kubemq", Name := "my-kubemq-cluster-1", UID := "u5" }

/-- A pod whose name does not hold `kubemq-`. -/
def otherPod : Pod :=
  { Namespace := "kubemq", Name := "dashboard-0", UID := "u6" }

end Resolver

/-! ## Operator logs command: `cmd/get/operator/logs/logs.go` -/

namespace Logs

/-- The field of `config.Config` read by the command. -/
structure Config where
  KubeConfigPath : String
  deriving DecidableEq, Repr

/-- The struct `logs.Options`, with the fields `NewCmdLogs` initialises. -/
structure Options where
  PodQuery : String
  ContainerQuery : String
  Timestamps : Bool
  Since : Int
  Namespace : String
  Exclude : List String
  Include : List String
  AllNamespaces : Bool
  Selector : String
  Tail : Int
  Color : String
  deriving DecidableEq, Repr

/-- The struct `LogsOptions` (logs.go 19-23). -/
structure LogsOptions where
  cfg : Config
  Options : Options
  disableColor : Bool
  deriving DecidableEq, Repr

/-- The values of the persistent flags of the command (logs.go 81-88) once the command
line has been parsed. -/
structure Flags where
  since : Int
  namespace_ : String
  container : String
  include_ : List String
  exclude : List String
  label : String
  tail : Int
  disableColor : Bool
  deriving DecidableEq, Repr

/-- The defaults the flags are registered with (logs.go 81-88). -/
def Flags.defaults : Flags :=
  { since := 0, namespace_ := "kubemq", container := "kubemq-operator", include_ := [],
    exclude := [], label := "", tail := 0, disableColor := false }

/-- The options `NewCmdLogs` builds (logs.go 51-66) with the flag-bound fields
(logs.go 81-88) holding the parsed flag values: the receiver `Run` calls `Complete` on. -/
def NewCmdLogs (cfg : Config) (flags : Flags) : LogsOptions :=
  { cfg := cfg
    Options :=
      { PodQuery := ".*"
        ContainerQuery := flags.container
        Timestamps := false
        Since := flags.since
        Namespace := flags.namespace_
        Exclude := flags.exclude
        Include := flags.include_
        AllNamespaces := true
        Selector := flags.label
        Tail := flags.tail
        Color := "auto" }
    disableColor := flags.disableColor }

/-- Pieces of a character list between occurrences of `sep`. -/
def splitChars (sep : Char) : List Char → List (List Char)
  | [] => [[]]
  | c :: cs =>
    if c = sep then [] :: splitChars sep cs
    else
      match splitChars sep cs with
      | [] => [[c]]
      | piece :: pieces => (c :: piece) :: pieces

/-- Go `strings.Split(s, "/")`. -/
def stringsSplitSlash (s : String) : List String :=
  (splitChars '/' s.data).map String.mk

/-- The collaborators `Complete` calls: `client.NewClient`, `operator.NewManager`,
`operatorManager.GetKubemqOperatorsBundle` followed by `operators.List()`, and
`survey.AskOne` on a select prompt with the given options and default. -/
structure Env where
  newClient : String → Except GoError Unit
  newManager : Except GoError Unit
  operatorsList : Except GoError (List String)
  askOne : List String → String → Except GoError String

/-- A select prompt put to the user: its options and its default. -/
structure Prompt where
  options : List String
  default : String
  deriving DecidableEq, Repr

/-- How a call ended: it returned an error value (`none` is nil) or panicked. -/
inductive Outcome where
  | returned (err : Option GoError)
  | panicked (msg : String)
  deriving DecidableEq, Repr

/-- What a call of `Complete` leaves behind: the receiver after the call, how the call
ended, and the prompts that were asked. -/
structure Completed where
  o : LogsOptions
  outcome : Outcome
  prompts : List Prompt
  deriving DecidableEq, Repr

/-- The statements of `Complete` from the label `NEXT` on (logs.go 126-136). -/
def completeNext (o : LogsOptions) (args : List String) (prompts : List Prompt) :
    Completed :=
  let o1 : LogsOptions :=
    match args with
    | arg0 :: _ => { o with Options := { o.Options with PodQuery := arg0 } }
    | [] => o
  let o2 : LogsOptions :=
    if o1.Options.Namespace ≠ "" then
      { o1 with Options := { o1.Options with AllNamespaces := false } }
    else o1
  let o3 : LogsOptions :=
    if o2.disableColor then { o2 with Options := { o2.Options with Color := "never" } }
    else o2
  { o := o3, outcome := .returned none, prompts := prompts }

/-- Method `LogsOptions.Complete` (logs.go 93-137). -/
def Complete (env : Env) (o : LogsOptions) (args : List String) : Completed :=
  match env.newClient o.cfg.KubeConfigPath with
  | .error err => { o := o, outcome := .returned (some err), prompts := [] }
  | .ok _ =>
  match env.newManager with
  | .error err => { o := o, outcome := .returned (some err), prompts := [] }
  | .ok _ =>
  match args with
  | _ :: _ => completeNext o args []
  | [] =>
    match env.operatorsList with
    | .error err => { o := o, outcome := .returned (some err), prompts := [] }
    | .ok [] => completeNext o args []
    | .ok (first :: rest) =>
      let prompt : Prompt := { options := first :: rest, default := first }
      match env.askOne prompt.options prompt.default with
      | .error err => { o := o, outcome := .returned (some err), prompts := [prompt] }
      | .ok selection =>
        match stringsSplitSlash selection with
        | [] => { o := o, outcome := .panicked "runtime error: index out of range [0] with length 0",
                  prompts := [prompt] }
        | [ns] =>
          { o := { o with Options := { o.Options with Namespace := ns } }
            outcome := .panicked "runtime error: index out of range [1] with length 1"
            prompts := [prompt] }
        | ns :: query :: _ =>
          completeNext
            { o with Options := { o.Options with Namespace := ns, PodQuery := query } }
            args [prompt]

/-- Collaborators on a cluster where client and manager are created, the operator bundle
lists the given operators, and the user picks `pick` at the prompt. -/
def envOf (operators : List String) (pick : String) : Env :=
  { newClient := fun _ => .ok ()
    newManager := .ok ()
    operatorsList := .ok operators
    askOne := fun _ _ => .ok pick }

end Logs

/-! ## Send commands: `cmd/commands/send.go` and `cmd/queries/send.go` -/

namespace Send

/-- The field of `config.Config` read by the send commands. -/
structure Config where
  ConnectionType : String
  deriving DecidableEq, Repr

/-- The struct `CommandsSendOptions` (commands/send.go 15-22). -/
structure CommandsSendOptions where
  cfg : Config
  transport : String
  channel : String
  message : String
  metadata : String
  timeout : Int
  deriving DecidableEq, Repr

/-- The struct `QueriesSendOptions` (queries/send.go 15-24). -/
structure QueriesSendOptions where
  cfg : Config
  transport : String
  channel : String
  message : String
  metadata : String
  timeout : Int
  cacheKey : String
  cacheTTL : Int
  deriving DecidableEq, Repr

/-- The message of the error both `Complete` methods build with `fmt.Errorf`. -/
def missingArguments : GoError :=
  "missing arguments, must be 2 arguments, channel and message"

/-- Method `CommandsSendOptions.Complete` (commands/send.go 63-71): the receiver after the call
and the returned error. -/
def CommandsSendOptions.Complete (o : CommandsSendOptions) (args : List String)
    (transport : String) : CommandsSendOptions × Option GoError :=
  let o1 := { o with transport := transport }
  if h : args.length ≥ 2 then
    ({ o1 with channel := args[0], message := args[1] }, none)
  else
    (o1, some missingArguments)

/-- Method `QueriesSendOptions.Complete` (queries/send.go 70-78). -/
def QueriesSendOptions.Complete (o : QueriesSendOptions) (args : List String)
    (transport : String) : QueriesSendOptions × Option GoError :=
  let o1 := { o with transport := transport }
  if h : args.length ≥ 2 then
    ({ o1 with channel := args[0], message := args[1] }, none)
  else
    (o1, some missingArguments)

end Send

/-! ## Cluster creation, resources: `cmd/cluster/create/resources.go` -/

namespace Create

/-- The struct `deployResourceOptions` (resources.go 9-15). -/
structure deployResourceOptions where
  enabled : Bool
  limitsCpu : String
  limitsMemory : String
  requestsCpu : String
  requestsMemory : String
  deriving DecidableEq, Repr

/-- The options `defaultResourceOptions` returns (resources.go 17-32): registering the
flags (resources.go 25-29) stores each flag's default in the field it is bound to. -/
def defaultResourceOptions : deployResourceOptions :=
  { enabled := false
    limitsCpu := "1000m"
    limitsMemory := "512Mi"
    requestsCpu := "100m"
    requestsMemory := "256Mi" }

/-- Method `deployResourceOptions.validate` (resources.go 34-51): the returned error,
`none` for nil. -/
def deployResourceOptions.validate (o : deployResourceOptions) : Option GoError :=
  if !o.enabled then
    none
  else if o.limitsCpu = "" then
    some "error setting resources configuration, missing limits cpu data"
  else if o.limitsMemory = "" then
    some "error setting resources configuration, missing limits memory data"
  else if o.requestsCpu = "" then
    some "error setting resources configuration, missing requests cpu data"
  else if o.requestsMemory = "" then
    some "error setting resources configuration, missing requests memory data"
  else
    none

end Create

/-! ## Theorems: tunnel session -/

namespace Tunnel

theorem readinessUnitService_eq (out errOut : String) (c : Chans) :
    readinessUnitService out errOut c = readinessUnit out errOut c := rfl

theorem forwardUnitService_eq (forwardErr : Option GoError) (c : Chans) :
    forwardUnitService forwardErr c = forwardUnit forwardErr c := rfl

theorem ForwardPortsToService_eq (r : Run) (c : Chans) :
    ForwardPortsToService r c = ForwardPorts r c := rfl

theorem readinessUnit_of_err {out errOut : String} (c : Chans) (h : errOut ≠ "") :
    readinessUnit out errOut c = closeStop (sendErrOut errOut c) := by
  simp [readinessUnit, h]

theorem closeStop_stopClosed (c : Chans) : (closeStop c).stopClosed = true := by
  unfold closeStop
  split <;> simp_all

/-- C1: in `ForwardPorts` and `ForwardPortsToService`, once `readyChan` has been closed
with a non-empty captured `errOut`, exactly `errOut` is sent on `errOutCh`, `stopChan` is
closed afterwards, and nothing is sent on `outCh`, whatever `out` holds; with `stopChan`
open beforehand the goroutine ends without a panic. -/
theorem readiness_error_payload (out errOut : String) (c : Chans) (h : errOut ≠ "") :
    ((readinessUnit out errOut c).errOutCh = c.errOutCh ++ [errOut] ∧
      (readinessUnit out errOut c).stopClosed = true ∧
      (readinessUnit out errOut c).outCh = c.outCh ∧
      (c.stopClosed = false → (readinessUnit out errOut c).panicMsg = c.panicMsg)) ∧
    ((readinessUnitService out errOut c).errOutCh = c.errOutCh ++ [errOut] ∧
      (readinessUnitService out errOut c).stopClosed = true ∧
      (readinessUnitService out errOut c).outCh = c.outCh ∧
      (c.stopClosed = false →
        (readinessUnitService out errOut c).panicMsg = c.panicMsg)) := by
  rw [readinessUnitService_eq, readinessUnit_of_err c h]
  have key : (closeStop (sendErrOut errOut c)).errOutCh = c.errOutCh ++ [errOut] ∧
      (closeStop (sendErrOut errOut c)).stopClosed = true ∧
      (closeStop (sendErrOut errOut c)).outCh = c.outCh ∧
      (c.stopClosed = false → (closeStop (sendErrOut errOut c)).panicMsg = c.panicMsg) := by
    refine ⟨?_, closeStop_stopClosed _, ?_, ?_⟩
    · unfold closeStop sendErrOut
      split <;> rfl
    · unfold closeStop sendErrOut
      split <;> rfl
    · intro hopen
      simp [closeStop, sendErrOut, hopen]
  exact ⟨key, key⟩

theorem readiness_error_payload_witness :
    ((readinessUnit "Forwarding from 127.0.0.1:8080 -> 8080" "bind: address in use"
        Chans.fresh).errOutCh = [] ++ ["bind: address in use"] ∧
      (readinessUnit "Forwarding from 127.0.0.1:8080 -> 8080" "bind: address in use"
        Chans.fresh).stopClosed = true ∧
      (readinessUnit "Forwarding from 127.0.0.1:8080 -> 8080" "bind: address in use"
        Chans.fresh).outCh = []) :=
  have h := (readiness_error_payload "Forwarding from 127.0.0.1:8080 -> 8080"
    "bind: address in use" Chans.fresh (by decide)).1
  ⟨h.1, h.2.1, h.2.2.1⟩

/-- C2: in `ForwardPorts` and `ForwardPortsToService`, once `readyChan` has been closed
with an empty captured `errOut`: a non-empty `out` is sent on `outCh`, and only that,
nothing is sent on `errOutCh`, `stopChan` is left as it was (open stays open) and nothing
panics; with both buffers empty the channels are left untouched. -/
theorem readiness_output_payload (out errOut : String) (c : Chans) (h : errOut = "") :
    ((out ≠ "" →
        (readinessUnit out errOut c).outCh = c.outCh ++ [out] ∧
        (readinessUnit out errOut c).errOutCh = c.errOutCh ∧
        (readinessUnit out errOut c).stopClosed = c.stopClosed ∧
        (readinessUnit out errOut c).panicMsg = c.panicMsg) ∧
      (out = "" → readinessUnit out errOut c = c)) ∧
    ((out ≠ "" →
        (readinessUnitService out errOut c).outCh = c.outCh ++ [out] ∧
        (readinessUnitService out errOut c).errOutCh = c.errOutCh ∧
        (readinessUnitService out errOut c).stopClosed = c.stopClosed ∧
        (readinessUnitService out errOut c).panicMsg = c.panicMsg) ∧
      (out = "" → readinessUnitService out errOut c = c)) := by
  subst h
  rw [readinessUnitService_eq]
  have key : (out ≠ "" →
        (readinessUnit out "" c).outCh = c.outCh ++ [out] ∧
        (readinessUnit out "" c).errOutCh = c.errOutCh ∧
        (readinessUnit out "" c).stopClosed = c.stopClosed ∧
        (readinessUnit out "" c).panicMsg = c.panicMsg) ∧
      (out = "" → readinessUnit out "" c = c) := by
    constructor
    · intro hout
      simp [readinessUnit, hout, sendOut]
    · intro hout
      simp [readinessUnit, hout]
  exact ⟨key, key⟩

theorem readiness_output_payload_witness :
    (readinessUnit "Forwarding from 127.0.0.1:8080 -> 8080" "" Chans.fresh).outCh
        = [] ++ ["Forwarding from 127.0.0.1:8080 -> 8080"] ∧
      (readinessUnit "Forwarding from 127.0.0.1:8080 -> 8080" "" Chans.fresh).errOutCh
        = [] ∧
      (readinessUnit "Forwarding from 127.0.0.1:8080 -> 8080" "" Chans.fresh).stopClosed
        = false :=
  have h := (readiness_output_payload "Forwarding from 127.0.0.1:8080 -> 8080" ""
    Chans.fresh rfl).1.1 (by decide)
  ⟨h.1, h.2.1, h.2.2.1⟩

/-- C3, counterexample: the forward loop fails with a non-empty message after the tunnel
came up; both `ForwardPorts` and `ForwardPortsToService` send the message on `errOutCh`
and leave `stopChan` open. -/
theorem forward_failure_leaves_stop_open :
    (ForwardPorts lostConnectionRun Chans.fresh).2.errOutCh = ["lost connection to pod"] ∧
    (ForwardPorts lostConnectionRun Chans.fresh).2.stopClosed = false ∧
    (ForwardPortsToService lostConnectionRun Chans.fresh).2.errOutCh
      = ["lost connection to pod"] ∧
    (ForwardPortsToService lostConnectionRun Chans.fresh).2.stopClosed = false := by
  decide

theorem forwardUnit_stopClosed (forwardErr : Option GoError) (c : Chans) :
    (forwardUnit forwardErr c).stopClosed = c.stopClosed := by
  cases forwardErr <;> rfl

theorem forwardUnit_panicMsg (forwardErr : Option GoError) (c : Chans) :
    (forwardUnit forwardErr c).panicMsg = c.panicMsg := by
  cases forwardErr <;> rfl

theorem forwardUnit_errOutCh (forwardErr : Option GoError) (c : Chans) :
    (forwardUnit forwardErr c).errOutCh = c.errOutCh ++ forwardErr.toList := by
  cases forwardErr <;> simp [forwardUnit, sendErrOut]

theorem whileAlive_of_alive (body : Chans → Chans) (c : Chans) (h : c.panicMsg = none) :
    whileAlive body c = body c := by
  simp [whileAlive, h]

theorem readinessUnit_stopClosed (out errOut : String) (c : Chans) :
    (readinessUnit out errOut c).stopClosed = (c.stopClosed || decide (errOut ≠ "")) := by
  by_cases h : errOut = ""
  · subst h
    by_cases hout : out = "" <;> simp [readinessUnit, hout, sendOut]
  · rw [readinessUnit_of_err c h, closeStop_stopClosed]
    simp [h]

theorem captured_error_iff (out errOut : String) :
    (∃ o e, (out = o ∧ errOut = e) ∧ ¬e = "") ↔ ¬errOut = "" := by
  constructor
  · rintro ⟨o, e, ⟨-, rfl⟩, h⟩
    exact h
  · intro h
    exact ⟨out, errOut, ⟨rfl, rfl⟩, h⟩

theorem readinessUnit_errOutCh_sub (out errOut : String) (c : Chans) :
    ∀ e ∈ c.errOutCh, e ∈ (readinessUnit out errOut c).errOutCh := by
  intro e he
  by_cases h : errOut = ""
  · subst h
    by_cases hout : out = "" <;> simp [readinessUnit, hout, sendOut, he]
  · rw [readinessUnit_of_err c h]
    unfold closeStop sendErrOut
    split <;> simp [he]

theorem readinessUnit_errOutCh_mem {out errOut : String} (c : Chans) (h : errOut ≠ "") :
    errOut ∈ (readinessUnit out errOut c).errOutCh := by
  rw [readinessUnit_of_err c h]
  unfold closeStop sendErrOut
  split <;> simp

theorem whileAlive_forwardUnit_errOutCh_sub (forwardErr : Option GoError) (c : Chans) :
    ∀ e ∈ c.errOutCh, e ∈ (whileAlive (forwardUnit forwardErr) c).errOutCh := by
  intro e he
  unfold whileAlive
  split
  · exact he
  · rw [forwardUnit_errOutCh]
    simp [he]

/-- C3, amended: in a run of `ForwardPorts` or `ForwardPortsToService` that starts its
goroutines on an open `stopChan`, the session closes `stopChan` exactly when `readyChan`
is closed with a non-empty captured error output, and that output is sent on `errOutCh`;
the failure message of the forward loop is sent on `errOutCh` as well, but sending it
never closes `stopChan`. -/
theorem session_stop_iff_captured_error (r : Run) (c : Chans) (hsetup : r.setupErr = none)
    (hopen : c.stopClosed = false) (halive : c.panicMsg = none) :
    (((ForwardPorts r c).2.stopClosed = true ↔
        ∃ out errOut, r.ready = some (out, errOut) ∧ errOut ≠ "") ∧
      (∀ e, r.forwardErr = some e → e ∈ (ForwardPorts r c).2.errOutCh) ∧
      (forwardUnit r.forwardErr c).stopClosed = c.stopClosed ∧
      (∀ out errOut, r.ready = some (out, errOut) → errOut ≠ "" →
        errOut ∈ (ForwardPorts r c).2.errOutCh)) ∧
    (((ForwardPortsToService r c).2.stopClosed = true ↔
        ∃ out errOut, r.ready = some (out, errOut) ∧ errOut ≠ "") ∧
      (∀ e, r.forwardErr = some e → e ∈ (ForwardPortsToService r c).2.errOutCh) ∧
      (forwardUnitService r.forwardErr c).stopClosed = c.stopClosed ∧
      (∀ out errOut, r.ready = some (out, errOut) → errOut ≠ "" →
        errOut ∈ (ForwardPortsToService r c).2.errOutCh)) := by
  rw [ForwardPortsToService_eq, forwardUnitService_eq]
  have key : ((ForwardPorts r c).2.stopClosed = true ↔
        ∃ out errOut, r.ready = some (out, errOut) ∧ errOut ≠ "") ∧
      (∀ e, r.forwardErr = some e → e ∈ (ForwardPorts r c).2.errOutCh) ∧
      (forwardUnit r.forwardErr c).stopClosed = c.stopClosed ∧
      (∀ out errOut, r.ready = some (out, errOut) → errOut ≠ "" →
        errOut ∈ (ForwardPorts r c).2.errOutCh) := by
    obtain ⟨setupErr, ready, forwardErr, forwardFirst⟩ := r
    simp only at hsetup
    subst hsetup
    have hfa : (forwardUnit forwardErr c).panicMsg = none := by
      rw [forwardUnit_panicMsg, halive]
    refine ⟨?_, ?_, forwardUnit_stopClosed _ _, ?_⟩
    · cases ready with
      | none =>
        cases forwardFirst <;>
          simp [ForwardPorts, whileAlive_of_alive _ c halive, forwardUnit_stopClosed, hopen]
      | some pair =>
        obtain ⟨out, errOut⟩ := pair
        cases forwardFirst
        · simp only [ForwardPorts, whileAlive_of_alive _ c halive, Bool.false_eq_true,
            if_false]
          by_cases hp : (readinessUnit out errOut c).panicMsg = none
          · rw [whileAlive_of_alive _ _ hp, forwardUnit_stopClosed, readinessUnit_stopClosed]
            simp [hopen]
            exact (captured_error_iff out errOut).symm
          · have : whileAlive (forwardUnit forwardErr) (readinessUnit out errOut c)
                = readinessUnit out errOut c := by
              cases hq : (readinessUnit out errOut c).panicMsg with
              | none => exact absurd hq hp
              | some m => simp [whileAlive, hq]
            rw [this, readinessUnit_stopClosed]
            simp [hopen]
            exact (captured_error_iff out errOut).symm
        · simp only [ForwardPorts, whileAlive_of_alive _ c halive, if_true]
          rw [whileAlive_of_alive _ _ hfa, readinessUnit_stopClosed, forwardUnit_stopClosed]
          simp [hopen]
          exact (captured_error_iff out errOut).symm
    · intro e he
      simp only at he
      subst he
      have hmem : e ∈ (forwardUnit (some e) c).errOutCh := by
        simp [forwardUnit, sendErrOut]
      cases ready with
      | none =>
        cases forwardFirst <;>
          simpa [ForwardPorts, whileAlive_of_alive _ c halive] using hmem
      | some pair =>
        obtain ⟨out, errOut⟩ := pair
        cases forwardFirst
        · simp only [ForwardPorts, whileAlive_of_alive _ c halive, Bool.false_eq_true,
            if_false]
          have hp : (readinessUnit out errOut c).panicMsg = none := by
            by_cases h : errOut = ""
            · subst h
              by_cases hout : out = "" <;> simp [readinessUnit, hout, sendOut, halive]
            · rw [readinessUnit_of_err c h]
              simp [closeStop, sendErrOut, hopen, halive]
          rw [whileAlive_of_alive _ _ hp]
          simp [forwardUnit, sendErrOut]
        · simp only [ForwardPorts, whileAlive_of_alive _ c halive, if_true]
          rw [whileAlive_of_alive _ _ hfa]
          exact readinessUnit_errOutCh_sub _ _ _ _ hmem
    · intro out errOut hready herr
      simp only at hready
      subst hready
      cases forwardFirst
      · simp only [ForwardPorts, whileAlive_of_alive _ c halive, Bool.false_eq_true,
          if_false]
        exact whileAlive_forwardUnit_errOutCh_sub _ _ _ (readinessUnit_errOutCh_mem c herr)
      · simp only [ForwardPorts, whileAlive_of_alive _ c halive, if_true]
        rw [whileAlive_of_alive _ _ hfa]
        exact readinessUnit_errOutCh_mem _ herr
  exact ⟨key, key⟩

theorem session_stop_iff_captured_error_witness :
    ((ForwardPorts lostConnectionRun Chans.fresh).2.stopClosed = true ↔
      ∃ out errOut, lostConnectionRun.ready = some (out, errOut) ∧ errOut ≠ "") ∧
    (∀ e, lostConnectionRun.forwardErr = some e →
      e ∈ (ForwardPorts lostConnectionRun Chans.fresh).2.errOutCh) ∧
    (ForwardPorts bindFailureRun Chans.fresh).2.stopClosed = true ∧
    "bind: address in use" ∈ (ForwardPorts bindFailureRun Chans.fresh).2.errOutCh ∧
    "bind: address in use" ∈ (ForwardPortsToService bindFailureRun Chans.fresh).2.errOutCh :=
  have h := (session_stop_iff_captured_error lostConnectionRun Chans.fresh rfl rfl rfl).1
  have g := session_stop_iff_captured_error bindFailureRun Chans.fresh rfl rfl rfl
  ⟨h.1, h.2.1, g.1.1.mpr ⟨"", "bind: address in use", rfl, by decide⟩,
    g.1.2.2.2 "" "bind: address in use" rfl (by decide),
    g.2.2.2.2 "" "bind: address in use" rfl (by decide)⟩

/-- C4, counterexample: a second `close(stopChan)` does not have the effect of one, it
panics; and with `stopChan` already closed by the caller, the implicit stop of
`ForwardPorts` and of `ForwardPortsToService` on a non-empty captured error output ends
in the panic `close of closed channel`. -/
theorem second_stop_panics :
    closeStop (closeStop Chans.fresh) ≠ closeStop Chans.fresh ∧
    (closeStop Chans.fresh).panicMsg = none ∧
    (closeStop (closeStop Chans.fresh)).panicMsg = some "close of closed channel" ∧
    (readinessUnit "" "bind: address in use" callerStopped).panicMsg
      = some "close of closed channel" ∧
    (readinessUnitService "" "bind: address in use" callerStopped).panicMsg
      = some "close of closed channel" := by
  decide

/-- C4, amended: triggering the stop signal is a plain `close(stopChan)` and is not
idempotent. On an open channel it closes the channel and raises no failure; on a channel
that is already closed it leaves the channel closed and raises the panic
`close of closed channel`. So when the caller has already closed `stopChan` and the
session performs its implicit stop on a non-empty captured error output, the payload is
sent on `errOutCh`, the channel stays closed and the goroutine panics. -/
theorem stop_trigger_once (c : Chans) (out errOut : String) (h : errOut ≠ "") :
    (c.stopClosed = false →
      closeStop c = { c with stopClosed := true } ∧
      (readinessUnit out errOut c).panicMsg = c.panicMsg ∧
      (readinessUnitService out errOut c).panicMsg = c.panicMsg) ∧
    (c.stopClosed = true →
      closeStop c = { c with panicMsg := some "close of closed channel" } ∧
      readinessUnit out errOut c =
        { c with errOutCh := c.errOutCh ++ [errOut],
                 panicMsg := some "close of closed channel" } ∧
      readinessUnitService out errOut c =
        { c with errOutCh := c.errOutCh ++ [errOut],
                 panicMsg := some "close of closed channel" }) := by
  rw [readinessUnitService_eq, readinessUnit_of_err c h]
  constructor
  · intro hopen
    simp [closeStop, sendErrOut, hopen]
  · intro hclosed
    simp [closeStop, sendErrOut, hclosed]

theorem stop_trigger_once_witness :
    closeStop callerStopped
        = { callerStopped with panicMsg := some "close of closed channel" } ∧
      readinessUnit "" "bind: address in use" callerStopped =
        { callerStopped with errOutCh := [] ++ ["bind: address in use"],
                             panicMsg := some "close of closed channel" } :=
  have h := (stop_trigger_once callerStopped "" "bind: address in use" (by decide)).2 rfl
  ⟨h.1, h.2.1⟩

end Tunnel

/-! ## Theorems: target resolver -/

namespace Resolver

/-- The search of `strings.Contains` finds exactly the contiguous occurrences. -/
theorem containsChars_iff (sub cs : List Char) :
    containsChars sub cs = true ↔ sub <:+: cs := by
  induction cs with
  | nil =>
    cases sub <;> simp [containsChars]
  | cons c cs ih =>
    rw [containsChars, Bool.or_eq_true, ih, List.infix_cons_iff,
      List.isPrefixOf_iff_prefix]

theorem mem_set {α : Type} (m : GoMap α) (k : String) (v : α) (e : String × α) :
    e ∈ m.set k v ↔ (e ∈ m ∧ e.1 ≠ k) ∨ e = (k, v) := by
  simp [GoMap.set]

/-- Every entry the loop of `GetPods` leaves in the map satisfies what the entries of the
map it started from satisfy, provided the entries the loop adds do. -/
theorem foldl_podStep_forall (name : String) (P : String × Pod → Prop)
    (hP : ∀ item : Pod, stringsContains item.Name (name ++ "-") = true →
      P (sprintfSlash item.Namespace item.Name, item))
    (items : List Pod) (list : GoMap Pod) (hlist : ∀ e ∈ list, P e) :
    ∀ e ∈ items.foldl (podStep name) list, P e := by
  induction items generalizing list with
  | nil => simpa using hlist
  | cons item items ih =>
    rw [List.foldl_cons]
    apply ih
    intro e he
    unfold podStep at he
    split at he
    · rename_i hc
      rcases (mem_set _ _ _ _).mp he with ⟨hmem, -⟩ | rfl
      · exact hlist e hmem
      · exact hP item hc
    · exact hlist e he

/-- The same for the loop of `GetServices`. -/
theorem foldl_serviceStep_forall (name : String) (P : String × Service → Prop)
    (hP : ∀ item : Service, item.Name = name →
      P (sprintfSlash item.Namespace item.Name, item))
    (items : List Service) (list : GoMap Service) (hlist : ∀ e ∈ list, P e) :
    ∀ e ∈ items.foldl (serviceStep name) list, P e := by
  induction items generalizing list with
  | nil => simpa using hlist
  | cons item items ih =>
    rw [List.foldl_cons]
    apply ih
    intro e he
    unfold serviceStep at he
    split at he
    · rename_i hc
      rcases (mem_set _ _ _ _).mp he with ⟨hmem, -⟩ | rfl
      · exact hlist e hmem
      · exact hP item hc
    · exact hlist e he

theorem contains_decompose {s sub : String} (h : stringsContains s sub = true) :
    ∃ pre post : String, s = pre ++ sub ++ post := by
  obtain ⟨a, b, hab⟩ := (containsChars_iff _ _).mp h
  refine ⟨⟨a⟩, ⟨b⟩, ?_⟩
  apply String.ext
  simp [String.data_append, hab]

/-- C5, counterexample: with the pod `my-kubemq-cluster-0` listed, `GetPods` for the
name `kubemq` returns that pod, whose name does not start with `kubemq`. -/
theorem GetPods_not_prefix :
    (GetPods (clusterOf [samplePod] []) "kubemq" "kubemq").1
      = some [("kubemq/my-kubemq-cluster-0", samplePod)] ∧
    startsWith samplePod.Name "kubemq" = false := by
  decide

/-- C5, amended: every pod in the map returned by `GetPods(ns, name)` has a `Name` that
contains `name` followed by `-` somewhere, not necessarily at its start. -/
theorem GetPods_name_contains (c : Client) (ns name : String) (m : GoMap Pod)
    (h : (GetPods c ns name).1 = some m) (e : String × Pod) (he : e ∈ m) :
    stringsContains e.2.Name (name ++ "-") = true ∧
    ∃ pre post : String, e.2.Name = pre ++ (name ++ "-") ++ post := by
  have hc : stringsContains e.2.Name (name ++ "-") = true := by
    unfold GetPods at h
    cases hl : c.listPods ns with
    | error err => simp [hl] at h
    | ok items =>
      simp only [hl, Option.some.injEq] at h
      subst h
      exact foldl_podStep_forall name
        (fun e => stringsContains e.2.Name (name ++ "-") = true)
        (fun _ hitem => hitem) items [] (by simp) e he
  exact ⟨hc, contains_decompose hc⟩

theorem GetPods_name_contains_witness :
    stringsContains samplePod.Name ("kubemq" ++ "-") = true ∧
    ∃ pre post : String, samplePod.Name = pre ++ ("kubemq" ++ "-") ++ post :=
  GetPods_name_contains (clusterOf [samplePod] []) "kubemq" "kubemq"
    [("kubemq/my-kubemq-cluster-0", samplePod)] (by decide)
    ("kubemq/my-kubemq-cluster-0", samplePod) (by simp)

/-- C6, counterexample: on a cluster whose listings succeed, `GetPods(ns, "")` and
`GetServices(ns, "")` return a map and a nil error. -/
theorem empty_name_accepted :
    GetPods (clusterOf [samplePod] [sampleService]) "kubemq" ""
      = (some [("kubemq/my-kubemq-cluster-0", samplePod)], none) ∧
    GetServices (clusterOf [samplePod] [sampleService]) "kubemq" "" = (some [], none) := by
  decide

/-- C6, amended: an empty name is not rejected. `GetPods(ns, "")` and
`GetServices(ns, "")` return an error exactly when the cluster listing fails; when the
listing succeeds they return a map, which holds only pods whose name contains `-`,
respectively only services whose name is empty. -/
theorem empty_name_resolves (c : Client) (ns : String) :
    (((GetPods c ns "").2 ≠ none ↔ ∃ err, c.listPods ns = .error err) ∧
      (∀ items, c.listPods ns = .ok items →
        ∃ m, GetPods c ns "" = (some m, none) ∧
          ∀ e ∈ m, stringsContains e.2.Name "-" = true)) ∧
    (((GetServices c ns "").2 ≠ none ↔ ∃ err, c.listServices ns = .error err) ∧
      (∀ items, c.listServices ns = .ok items →
        ∃ m, GetServices c ns "" = (some m, none) ∧ ∀ e ∈ m, e.2.Name = "")) := by
  refine ⟨⟨?_, ?_⟩, ⟨?_, ?_⟩⟩
  · unfold GetPods
    cases c.listPods ns <;> simp
  · intro items hl
    refine ⟨items.foldl (podStep "") [], by simp [GetPods, hl], ?_⟩
    exact foldl_podStep_forall "" (fun e => stringsContains e.2.Name "-" = true)
      (fun _ hitem => hitem) items [] (by simp)
  · unfold GetServices
    cases c.listServices ns <;> simp
  · intro items hl
    refine ⟨items.foldl (serviceStep "") [], by simp [GetServices, hl], ?_⟩
    exact foldl_serviceStep_forall "" (fun e => e.2.Name = "")
      (fun _ hitem => hitem) items [] (by simp)

/-- C7: `GetPods` and `GetServices` return a non-nil error exactly when the listing call
failed; then the error is the listing's error and the map is nil; when the listing
succeeds the error is nil and the map is not nil. -/
theorem listing_error_surfaced (c : Client) (ns name : String) :
    (((GetPods c ns name).2 ≠ none ↔ ∃ err, c.listPods ns = .error err) ∧
      (∀ err, c.listPods ns = .error err → GetPods c ns name = (none, some err)) ∧
      (∀ items, c.listPods ns = .ok items →
        (GetPods c ns name).2 = none ∧ (GetPods c ns name).1 ≠ none)) ∧
    (((GetServices c ns name).2 ≠ none ↔ ∃ err, c.listServices ns = .error err) ∧
      (∀ err, c.listServices ns = .error err →
        GetServices c ns name = (none, some err)) ∧
      (∀ items, c.listServices ns = .ok items →
        (GetServices c ns name).2 = none ∧ (GetServices c ns name).1 ≠ none)) := by
  refine ⟨⟨?_, ?_, ?_⟩, ⟨?_, ?_, ?_⟩⟩
  · unfold GetPods
    cases c.listPods ns <;> simp
  · intro err hl
    simp [GetPods, hl]
  · intro items hl
    simp [GetPods, hl]
  · unfold GetServices
    cases c.listServices ns <;> simp
  · intro err hl
    simp [GetServices, hl]
  · intro items hl
    simp [GetServices, hl]

theorem listing_error_surfaced_witness :
    GetPods unreachableCluster "kubemq" "kubemq" = (none, some "connection refused") ∧
    GetServices unreachableCluster "kubemq" "kubemq" = (none, some "connection refused") :=
  ⟨(listing_error_surfaced unreachableCluster "kubemq" "kubemq").1.2.1
      "connection refused" rfl,
    (listing_error_surfaced unreachableCluster "kubemq" "kubemq").2.2.1
      "connection refused" rfl⟩

end Resolver

/-! ## Theorems: operator logs command -/

namespace Logs

theorem completeNext_outcome (o : LogsOptions) (args : List String)
    (prompts : List Prompt) : (completeNext o args prompts).outcome = .returned none := rfl

theorem completeNext_prompts (o : LogsOptions) (args : List String)
    (prompts : List Prompt) : (completeNext o args prompts).prompts = prompts := rfl

theorem completeNext_Namespace (o : LogsOptions) (args : List String)
    (prompts : List Prompt) :
    (completeNext o args prompts).o.Options.Namespace = o.Options.Namespace := by
  unfold completeNext
  cases args <;> dsimp only <;> split <;> split <;> rfl

theorem completeNext_PodQuery_nil (o : LogsOptions) (prompts : List Prompt) :
    (completeNext o [] prompts).o.Options.PodQuery = o.Options.PodQuery := by
  unfold completeNext
  dsimp only
  split <;> split <;> rfl

/-- After the statements from `NEXT` on, `AllNamespaces` is still set exactly when it was
set before and the namespace is empty. -/
theorem completeNext_AllNamespaces (o : LogsOptions) (args : List String)
    (prompts : List Prompt) :
    (completeNext o args prompts).o.Options.AllNamespaces = true ↔
      (o.Options.AllNamespaces = true ∧ o.Options.Namespace = "") := by
  unfold completeNext
  cases args <;> dsimp only <;> split <;> split <;> simp_all

/-- C8: in `LogsOptions.Complete`, with no positional argument, client and manager
created and an operator bundle that lists no operators, the call returns nil, asks no
prompt and leaves `PodQuery` and `Namespace` as they were. -/
theorem Complete_no_operators (env : Env) (o : LogsOptions)
    (hclient : env.newClient o.cfg.KubeConfigPath = .ok ())
    (hmanager : env.newManager = .ok ()) (hlist : env.operatorsList = .ok []) :
    (Complete env o []).outcome = .returned none ∧
    (Complete env o []).prompts = [] ∧
    (Complete env o []).o.Options.PodQuery = o.Options.PodQuery ∧
    (Complete env o []).o.Options.Namespace = o.Options.Namespace := by
  have h : Complete env o [] = completeNext o [] [] := by
    simp [Complete, hclient, hmanager, hlist]
  rw [h]
  exact ⟨rfl, rfl, completeNext_PodQuery_nil o [], completeNext_Namespace o [] []⟩

theorem Complete_no_operators_witness :
    (Complete (envOf [] "") (NewCmdLogs ⟨""⟩ Flags.defaults) []).outcome = .returned none ∧
    (Complete (envOf [] "") (NewCmdLogs ⟨""⟩ Flags.defaults) []).prompts = [] ∧
    (Complete (envOf [] "") (NewCmdLogs ⟨""⟩ Flags.defaults) []).o.Options.PodQuery
      = ".*" ∧
    (Complete (envOf [] "") (NewCmdLogs ⟨""⟩ Flags.defaults) []).o.Options.Namespace
      = "kubemq" :=
  Complete_no_operators (envOf [] "") (NewCmdLogs ⟨""⟩ Flags.defaults) rfl rfl rfl

/-- Whenever `Complete` returns nil it has run the statements from `NEXT` on, on options
whose `AllNamespaces` is the one of the receiver. -/
theorem Complete_returned_nil (env : Env) (o : LogsOptions) (args : List String)
    (h : (Complete env o args).outcome = .returned none) :
    ∃ o1 prompts, Complete env o args = completeNext o1 args prompts ∧
      o1.Options.AllNamespaces = o.Options.AllNamespaces := by
  unfold Complete at h ⊢
  cases hc : env.newClient o.cfg.KubeConfigPath with
  | error err => simp [hc] at h
  | ok u =>
    cases hm : env.newManager with
    | error err => simp [hc, hm] at h
    | ok u2 =>
      cases args with
      | cons a rest => exact ⟨o, [], by simp, rfl⟩
      | nil =>
        cases hl : env.operatorsList with
        | error err => simp [hc, hm, hl] at h
        | ok operators =>
          cases operators with
          | nil => exact ⟨o, [], by simp, rfl⟩
          | cons first rest =>
            cases ha : env.askOne (first :: rest) first with
            | error err => simp [hc, hm, hl, ha] at h
            | ok selection =>
              simp only [hc, hm, hl, ha] at h ⊢
              cases hs : stringsSplitSlash selection with
              | nil => simp [hs] at h
              | cons ns tl =>
                cases tl with
                | nil => simp [hs] at h
                | cons query tl2 =>
                  exact ⟨{ o with Options :=
                            { o.Options with Namespace := ns, PodQuery := query } },
                    [{ options := first :: rest, default := first }], by simp, rfl⟩

/-- C9: for the options built by `NewCmdLogs`, whatever the flags, after every call of
`LogsOptions.Complete` that returns nil, `AllNamespaces` is true exactly when the
resulting `Namespace` is empty, whether the namespace comes from the flag or from the
selection at the prompt. -/
theorem AllNamespaces_iff_empty_Namespace (env : Env) (cfg : Config) (flags : Flags)
    (args : List String)
    (h : (Complete env (NewCmdLogs cfg flags) args).outcome = .returned none) :
    (Complete env (NewCmdLogs cfg flags) args).o.Options.AllNamespaces = true ↔
      (Complete env (NewCmdLogs cfg flags) args).o.Options.Namespace = "" := by
  obtain ⟨o1, prompts, heq, hall⟩ := Complete_returned_nil env _ args h
  rw [heq, completeNext_AllNamespaces, completeNext_Namespace, hall]
  simp [NewCmdLogs]

theorem AllNamespaces_iff_empty_Namespace_witness :
    (Complete (envOf ["kubemq/kubemq-operator"] "kubemq/kubemq-operator")
        (NewCmdLogs ⟨""⟩ { Flags.defaults with namespace_ := "" }) []).o.Options.Namespace
      = "kubemq" ∧
    ((Complete (envOf ["kubemq/kubemq-operator"] "kubemq/kubemq-operator")
        (NewCmdLogs ⟨""⟩ { Flags.defaults with namespace_ := "" }) []).o.Options.AllNamespaces
      = true ↔
    (Complete (envOf ["kubemq/kubemq-operator"] "kubemq/kubemq-operator")
        (NewCmdLogs ⟨""⟩ { Flags.defaults with namespace_ := "" }) []).o.Options.Namespace
      = "") :=
  ⟨by decide,
    AllNamespaces_iff_empty_Namespace
      (envOf ["kubemq/kubemq-operator"] "kubemq/kubemq-operator") ⟨""⟩
      { Flags.defaults with namespace_ := "" } [] (by decide)⟩

end Logs

/-! ## Theorems: send commands -/

namespace Send

/-- C10: `CommandsSendOptions.Complete` and `QueriesSendOptions.Complete` return the
error `missing arguments, must be 2 arguments, channel and message` exactly when fewer
than two arguments are given; otherwise they return nil with `channel` the first and
`message` the second argument, whatever follows; in both cases `transport` is set to the
given value. -/
theorem Complete_two_arguments (args : List String) (transport : String) :
    (∀ o : CommandsSendOptions,
      ((o.Complete args transport).2
          = some "missing arguments, must be 2 arguments, channel and message" ↔
        args.length < 2) ∧
      ((o.Complete args transport).2 = none ↔ 2 ≤ args.length) ∧
      (∀ a0 a1 rest, args = a0 :: a1 :: rest →
        o.Complete args transport
          = ({ o with transport := transport, channel := a0, message := a1 }, none)) ∧
      (o.Complete args transport).1.transport = transport) ∧
    (∀ o : QueriesSendOptions,
      ((o.Complete args transport).2
          = some "missing arguments, must be 2 arguments, channel and message" ↔
        args.length < 2) ∧
      ((o.Complete args transport).2 = none ↔ 2 ≤ args.length) ∧
      (∀ a0 a1 rest, args = a0 :: a1 :: rest →
        o.Complete args transport
          = ({ o with transport := transport, channel := a0, message := a1 }, none)) ∧
      (o.Complete args transport).1.transport = transport) := by
  constructor
  · intro o
    unfold CommandsSendOptions.Complete
    by_cases hlen : args.length ≥ 2
    · refine ⟨by simp [hlen], by simp [hlen], ?_, by simp [hlen]⟩
      intro a0 a1 rest hargs
      subst hargs
      simp
    · refine ⟨by simp [hlen, missingArguments]; omega, by simp [hlen], ?_, by simp [hlen]⟩
      intro a0 a1 rest hargs
      subst hargs
      simp at hlen
  · intro o
    unfold QueriesSendOptions.Complete
    by_cases hlen : args.length ≥ 2
    · refine ⟨by simp [hlen], by simp [hlen], ?_, by simp [hlen]⟩
      intro a0 a1 rest hargs
      subst hargs
      simp
    · refine ⟨by simp [hlen, missingArguments]; omega, by simp [hlen], ?_, by simp [hlen]⟩
      intro a0 a1 rest hargs
      subst hargs
      simp at hlen

end Send

/-! ## Theorems: cluster creation, resources -/

namespace Create

/-- C11: `deployResourceOptions.validate` returns an error exactly when the resources
configuration is enabled and one of `limitsCpu`, `limitsMemory`, `requestsCpu`,
`requestsMemory` is empty; with `enabled` false it returns nil whatever the four fields
hold; and when it fails the message names the first empty field in the order limits cpu,
limits memory, requests cpu, requests memory. -/
theorem validate_error_iff (o : deployResourceOptions) :
    (o.validate ≠ none ↔
      (o.enabled = true ∧
        (o.limitsCpu = "" ∨ o.limitsMemory = "" ∨ o.requestsCpu = "" ∨
          o.requestsMemory = ""))) ∧
    (o.enabled = false → o.validate = none) ∧
    (o.enabled = true → o.limitsCpu = "" →
      o.validate = some "error setting resources configuration, missing limits cpu data") ∧
    (o.enabled = true → o.limitsCpu ≠ "" → o.limitsMemory = "" →
      o.validate
        = some "error setting resources configuration, missing limits memory data") ∧
    (o.enabled = true → o.limitsCpu ≠ "" → o.limitsMemory ≠ "" → o.requestsCpu = "" →
      o.validate
        = some "error setting resources configuration, missing requests cpu data") ∧
    (o.enabled = true → o.limitsCpu ≠ "" → o.limitsMemory ≠ "" → o.requestsCpu ≠ "" →
      o.requestsMemory = "" →
      o.validate
        = some "error setting resources configuration, missing requests memory data") := by
  obtain ⟨enabled, limitsCpu, limitsMemory, requestsCpu, requestsMemory⟩ := o
  cases enabled
  · simp [deployResourceOptions.validate]
  · by_cases h1 : limitsCpu = ""
    · simp [deployResourceOptions.validate, h1]
    · by_cases h2 : limitsMemory = ""
      · simp [deployResourceOptions.validate, h1, h2]
      · by_cases h3 : requestsCpu = ""
        · simp [deployResourceOptions.validate, h1, h2, h3]
        · by_cases h4 : requestsMemory = ""
          · simp [deployResourceOptions.validate, h1, h2, h3, h4]
          · simp [deployResourceOptions.validate, h1, h2, h3, h4]

theorem validate_error_iff_witness :
    defaultResourceOptions.validate = none ∧
    ({ defaultResourceOptions with enabled := true } : deployResourceOptions).validate
      = none ∧
    ({ defaultResourceOptions with
        enabled := true, limitsMemory := "", requestsMemory := "" } :
        deployResourceOptions).validate
      = some "error setting resources configuration, missing limits memory data" :=
  ⟨(validate_error_iff defaultResourceOptions).2.1 rfl,
    by decide,
    (validate_error_iff
      { defaultResourceOptions with
        enabled := true, limitsMemory := "", requestsMemory := "" }).2.2.2.1
      rfl (by decide) rfl⟩

end Create

/-! ## Theorems: what `GetPods` returns -/

namespace Resolver

theorem set_keys_nodup {α : Type} (m : GoMap α) (k : String) (v : α)
    (h : (m.map Prod.fst).Nodup) : ((m.set k v).map Prod.fst).Nodup := by
  unfold GoMap.set
  rw [List.map_append, List.nodup_append]
  refine ⟨h.sublist ((List.filter_sublist m).map Prod.fst), by simp, ?_⟩
  intro a ha hk
  simp only [List.map_cons, List.map_nil, List.mem_singleton] at hk
  subst hk
  simp at ha

theorem foldl_podStep_keys_nodup (name : String) (items : List Pod) (list : GoMap Pod)
    (h : (list.map Prod.fst).Nodup) :
    ((items.foldl (podStep name) list).map Prod.fst).Nodup := by
  induction items generalizing list with
  | nil => simpa using h
  | cons item items ih =>
    rw [List.foldl_cons]
    apply ih
    unfold podStep
    split
    · exact set_keys_nodup _ _ _ h
    · exact h

/-- Every entry the loop of `GetPods` leaves in the map was there before, or is a listed
pod that matches, under its own key. -/
theorem foldl_podStep_sound (name : String) (items : List Pod) (list : GoMap Pod) :
    ∀ e ∈ items.foldl (podStep name) list,
      e ∈ list ∨
        (e.2 ∈ items ∧ stringsContains e.2.Name (name ++ "-") = true ∧ e.1 = podKey e.2) := by
  induction items generalizing list with
  | nil =>
    intro e he
    exact Or.inl (by simpa using he)
  | cons item items ih =>
    intro e he
    rw [List.foldl_cons] at he
    rcases ih _ e he with hstep | ⟨hmem, hc, hk⟩
    · unfold podStep at hstep
      split at hstep
      · rename_i hitem
        rcases (mem_set _ _ _ _).mp hstep with ⟨hold, -⟩ | rfl
        · exact Or.inl hold
        · exact Or.inr ⟨List.mem_cons_self _ _, hitem, rfl⟩
      · exact Or.inl hstep
    · exact Or.inr ⟨List.mem_cons_of_mem _ hmem, hc, hk⟩

/-- An entry stays in the map through the loop of `GetPods` as long as no later matching
pod has its key. -/
theorem foldl_podStep_keeps (name : String) (p : Pod) (post : List Pod) (list : GoMap Pod)
    (hmem : (podKey p, p) ∈ list)
    (hpost : ∀ q ∈ post, stringsContains q.Name (name ++ "-") = true →
      podKey q ≠ podKey p) :
    (podKey p, p) ∈ post.foldl (podStep name) list := by
  induction post generalizing list with
  | nil => simpa using hmem
  | cons q post ih =>
    rw [List.foldl_cons]
    apply ih
    · unfold podStep
      split
      · rename_i hq
        have hne : podKey q ≠ podKey p := hpost q (List.mem_cons_self _ _) hq
        exact (mem_set _ _ _ _).mpr (Or.inl ⟨hmem, fun h => hne h.symm⟩)
      · exact hmem
    · intro r hr hc
      exact hpost r (List.mem_cons_of_mem _ hr) hc

theorem foldl_podStep_last (name : String) (pre post : List Pod) (p : Pod)
    (hp : stringsContains p.Name (name ++ "-") = true)
    (hpost : ∀ q ∈ post, stringsContains q.Name (name ++ "-") = true →
      podKey q ≠ podKey p) :
    (podKey p, p) ∈ (pre ++ p :: post).foldl (podStep name) [] := by
  rw [List.foldl_append, List.foldl_cons]
  apply foldl_podStep_keeps name p post _ _ hpost
  unfold podStep
  rw [if_pos hp]
  exact (mem_set _ _ _ _).mpr (Or.inr rfl)

theorem later_keys_differ {pre post : List Pod} {p : Pod}
    (h : ((pre ++ p :: post).map podKey).Nodup) : ∀ q ∈ post, podKey q ≠ podKey p := by
  intro q hq heq
  rw [List.map_append, List.map_cons, List.nodup_append] at h
  have hnot : podKey p ∉ post.map podKey := (List.nodup_cons.mp h.2.1).1
  exact hnot (heq ▸ List.mem_map_of_mem podKey hq)

/-- Why the keys of the listing matter: in a list of items that names one key twice, which
no cluster listing does, the later matching item replaces the earlier one in the map, be
it the same namespace and name a second time or another namespace and name with the same
`Namespace/Name` string. -/
theorem GetPods_same_key_overwrites :
    GetPods (clusterOf [samplePod, samplePodAgain] []) "kubemq" "kubemq"
      = (some [("kubemq/my-kubemq-cluster-0", samplePodAgain)], none) ∧
    stringsContains samplePod.Name ("kubemq" ++ "-") = true ∧
    samplePod ≠ samplePodAgain ∧
    GetPods (clusterOf [slashPodA, slashPodB] []) "" "x"
      = (some [("a/b/x-0", slashPodB)], none) ∧
    stringsContains slashPodA.Name ("x" ++ "-") = true ∧
    slashPodA ≠ slashPodB := by
  decide

/-- What the map of `GetPods(ns, name)` holds after a successful listing, whatever the
listed items: each key once; every entry is a listed pod whose `Name` contains `name`
followed by `-` somewhere, stored under the key `Namespace/Name` of that pod; a listed
pod that matches is in the map under its key unless a pod listed after it matches and has
the same key. -/
theorem GetPods_entries (c : Client) (ns name : String) (items : List Pod)
    (hlist : c.listPods ns = .ok items) :
    ∃ m, GetPods c ns name = (some m, none) ∧
      (m.map Prod.fst).Nodup ∧
      (∀ e ∈ m, e.2 ∈ items ∧ stringsContains e.2.Name (name ++ "-") = true ∧
        e.1 = e.2.Namespace ++ "/" ++ e.2.Name) ∧
      (∀ pre p post, items = pre ++ p :: post →
        stringsContains p.Name (name ++ "-") = true →
        (∀ q ∈ post, stringsContains q.Name (name ++ "-") = true →
          q.Namespace ++ "/" ++ q.Name ≠ p.Namespace ++ "/" ++ p.Name) →
        (p.Namespace ++ "/" ++ p.Name, p) ∈ m) ∧
      ((items.map (fun p => p.Namespace ++ "/" ++ p.Name)).Nodup →
        ∀ p, (p.Namespace ++ "/" ++ p.Name, p) ∈ m ↔
          (p ∈ items ∧ stringsContains p.Name (name ++ "-") = true)) ∧
      (∀ p : Pod, stringsContains p.Name (name ++ "-") = true ↔
        (name ++ "-").data <:+: p.Name.data) := by
  refine ⟨items.foldl (podStep name) [], by simp [GetPods, hlist],
    foldl_podStep_keys_nodup name items [] (by simp), ?_, ?_, ?_,
    fun p => containsChars_iff _ _⟩
  · intro e he
    rcases foldl_podStep_sound name items [] e he with hnil | h
    · simp at hnil
    · exact h
  · intro pre p post hitems hp hpost
    subst hitems
    exact foldl_podStep_last name pre post p hp hpost
  · intro hnodup p
    constructor
    · intro hmem
      rcases foldl_podStep_sound name items [] _ hmem with hnil | h
      · simp at hnil
      · exact ⟨h.1, h.2.1⟩
    · rintro ⟨hmem, hp⟩
      obtain ⟨pre, post, hitems⟩ := List.append_of_mem hmem
      subst hitems
      exact foldl_podStep_last name pre post p hp
        (fun q hq _ => later_keys_differ hnodup q hq)

/-- C12: for every successful listing, in which each pod is listed once under its
`Namespace/Name`, and every name, the map returned by `GetPods(ns, name)` contains exactly
the listed pods whose `Name` contains `name` followed by `-` as a substring, anywhere in
the name, each stored under the key `Namespace/Name` of that pod; no listed pod that
matches is missing and no entry has a key other than its own pod's namespace/name. -/
theorem GetPods_exactly_matching (c : Client) (ns name : String) (items : List Pod)
    (hlist : c.listPods ns = .ok items)
    (hkeys : (items.map (fun p => p.Namespace ++ "/" ++ p.Name)).Nodup) :
    ∃ m, GetPods c ns name = (some m, none) ∧
      (∀ p, (∃ k, (k, p) ∈ m) ↔ (p ∈ items ∧ (name ++ "-").data <:+: p.Name.data)) ∧
      (∀ p ∈ items, (name ++ "-").data <:+: p.Name.data →
        (p.Namespace ++ "/" ++ p.Name, p) ∈ m) ∧
      (∀ e ∈ m, e.1 = e.2.Namespace ++ "/" ++ e.2.Name) ∧
      (m.map Prod.fst).Nodup := by
  obtain ⟨m, hm, hnodup, hsound, -, hiff, hc⟩ := GetPods_entries c ns name items hlist
  refine ⟨m, hm, ?_, ?_, fun e he => (hsound e he).2.2, hnodup⟩
  · intro p
    constructor
    · rintro ⟨k, hk⟩
      exact ⟨(hsound (k, p) hk).1, (hc p).mp (hsound (k, p) hk).2.1⟩
    · rintro ⟨hmem, hinfix⟩
      exact ⟨_, (hiff hkeys p).mpr ⟨hmem, (hc p).mpr hinfix⟩⟩
  · intro p hmem hinfix
    exact (hiff hkeys p).mpr ⟨hmem, (hc p).mpr hinfix⟩

theorem GetPods_exactly_matching_witness :
    GetPods (clusterOf [samplePod, otherPod, samplePodOne] []) "kubemq" "kubemq"
      = (some [("kubemq/my-kubemq-cluster-0", samplePod),
          ("kubemq/my-kubemq-cluster-1", samplePodOne)], none) ∧
    ∃ m, GetPods (clusterOf [samplePod, otherPod, samplePodOne] []) "kubemq" "kubemq"
        = (some m, none) ∧
      (∀ p, (∃ k, (k, p) ∈ m) ↔
        (p ∈ [samplePod, otherPod, samplePodOne] ∧
          ("kubemq" ++ "-").data <:+: p.Name.data)) ∧
      ("kubemq/my-kubemq-cluster-0", samplePod) ∈ m ∧
      ("kubemq/my-kubemq-cluster-1", samplePodOne) ∈ m := by
  refine ⟨by decide, ?_⟩
  obtain ⟨m, hm, hexact, hall, -, -⟩ :=
    GetPods_exactly_matching (clusterOf [samplePod, otherPod, samplePodOne] []) "kubemq"
      "kubemq" [samplePod, otherPod, samplePodOne] rfl (by decide)
  exact ⟨m, hm, hexact,
    hall samplePod (by decide) ((containsChars_iff _ _).mp (by decide)),
    hall samplePodOne (by decide) ((containsChars_iff _ _).mp (by decide))⟩

end Resolver

end Kubemqctl
